import Mathlib

/-!
Verification of the column auto-detection and chart-configuration
resolution pipeline of the auto report generator (src/main.py).

The embedding translates, faithfully from the source:
  - `auto_detect_columns` (main.py lines 41-81),
  - `get_chart_config` (main.py lines 84-120),
  - the bar / pie / line chart aggregation logic inside `generate_report`
    (main.py lines 190-271).

Modelling conventions:
  - a dataframe cell is `Value`: a rational number, a string, or null
    (pandas NaN / None);
  - a column has a declared kind (`CKind`), mirroring the pandas dtype
    used by `select_dtypes`;
  - `df.groupby(key)` drops rows whose key is null and returns groups
    sorted by key ascending (pandas default `sort=True`, `dropna=True`);
  - pandas `Series.sum()` skips nulls and returns 0 for an all-null
    group, `Series.mean()` of an all-null group is NaN (modelled `none`),
    `.size()` counts all rows of the group;
  - the float comparison `df[col].notna().sum() > len(df) * 0.3` is
    embedded as the exact rational comparison `10 * notna > 3 * len`;
    for realistic row counts (far below 2^50) the double-precision
    computation agrees with the exact comparison, since the relative
    error of `n * 0.3` stays below half an ulp of `0.3 * n`.
-/

namespace Report

/-- A cell value of a tabular dataset: a number, a string, or null. -/
inductive Value where
  | null : Value
  | num : ℚ → Value
  | str : String → Value
deriving DecidableEq

/-- The declared kind (pandas dtype family) of a column: `number` for
`select_dtypes(include=[number])`, `text` for `object`/`category`. -/
inductive CKind where
  | number : CKind
  | text : CKind
deriving DecidableEq

/-- A rectangular dataset: named and kinded columns, ordered rows.
Each row lists its cells in column order. -/
structure Dataset where
  colNames : List String
  colKinds : List CKind
  rows : List (List Value)

/-- Whether `pat` occurs at the start of `l` (character-list match). -/
def matchAt : List Char → List Char → Bool
  | [], _ => true
  | _ :: _, [] => false
  | a :: as, b :: bs => a == b && matchAt as bs

/-- Whether `pat` occurs somewhere inside `l`. -/
def hasSubL (pat : List Char) : List Char → Bool
  | [] => matchAt pat []
  | c :: cs => matchAt pat (c :: cs) || hasSubL pat cs

/-- Python `pat in s`: case-sensitive substring test. -/
def strHasSub (s pat : String) : Bool :=
  hasSubL pat.data s.data

/-- Index of a column name in the dataset header. -/
def colIdx (ds : Dataset) (c : String) : Option Nat :=
  ds.colNames.findIdx? (fun n => n == c)

/-- The cells of column `c`, in row order (`[]` if the column is absent). -/
def colCells (ds : Dataset) (c : String) : List Value :=
  match colIdx ds c with
  | some i => ds.rows.map (fun r => r.getD i Value.null)
  | none => []

/-- `df[col].notna().sum()`: number of non-null cells of the column. -/
def notnaCount (ds : Dataset) (c : String) : Nat :=
  (colCells ds c).countP (fun v => v != Value.null)

/-- The declared kind of column `c`, if present. -/
def kindOf (ds : Dataset) (c : String) : Option CKind :=
  match colIdx ds c with
  | some i => ds.colKinds.get? i
  | none => none

/-- The dict returned by `auto_detect_columns` (main.py lines 75-81). -/
structure Detected where
  numeric : List String
  categorical : List String
  date : List String
  best_numeric : Option String
  best_categorical : Option String
deriving DecidableEq

/-- Python `s.lower()`, written as a map over the character list. -/
def strLower (s : String) : String :=
  ⟨s.data.map Char.toLower⟩

/-- Name-based date detection (main.py line 69):
`'date' in col.lower() or 'time' in col.lower()`. -/
def isDateName (c : String) : Bool :=
  strHasSub (strLower c) "date" || strHasSub (strLower c) "time"

/-- Validity filter of main.py lines 72-73:
`df[col].notna().sum() > len(df) * 0.3`, embedded exactly over ℚ
as `10 * notna > 3 * rows`. -/
def validCol (ds : Dataset) (c : String) : Bool :=
  decide (3 * ds.rows.length < 10 * notnaCount ds c)

/-- `auto_detect_columns` (main.py lines 41-81): classify columns by
dtype, detect date-like names, filter sparse columns, pick the first
valid column of each kind as the best one. -/
def auto_detect_columns (ds : Dataset) : Detected :=
  let numericCols := ds.colNames.filter (fun c => kindOf ds c == some CKind.number)
  let categoricalCols := ds.colNames.filter (fun c => kindOf ds c == some CKind.text)
  let dateCols := ds.colNames.filter isDateName
  let validNumeric := numericCols.filter (validCol ds)
  let validCategorical := categoricalCols.filter (validCol ds)
  { numeric := validNumeric
    categorical := validCategorical
    date := dateCols
    best_numeric := validNumeric.head?
    best_categorical := validCategorical.head? }

/-- A value of the chart-configuration dict: null (Python `None`),
a string, an integer, or a list of column names. The sentinel `"auto"`
is the string value `vstr "auto"`. -/
inductive CVal where
  | vnull : CVal
  | vstr : String → CVal
  | vint : Int → CVal
  | vlist : List String → CVal
deriving DecidableEq

/-- An optional column name as a config value (`None` when absent). -/
def optStr : Option String → CVal
  | some s => CVal.vstr s
  | none => CVal.vnull

/-- The auto default for an `x_col` key (main.py line 110):
`detected[best_categorical] or (detected[date][0] if detected[date] else None)`.
Python `or` falls through on `None` and on the empty string. -/
def xColAuto (d : Detected) : CVal :=
  match d.best_categorical with
  | some s => if s = "" then optStr d.date.head? else CVal.vstr s
  | none => optStr d.date.head?

/-- Resolution of one configuration entry (main.py lines 102-118): a
value equal to `"auto"` or `None` is replaced according to the key name,
any other value is kept. -/
def resolveEntry (d : Detected) (k : String) (v : CVal) : CVal :=
  if v = CVal.vstr "auto" ∨ v = CVal.vnull then
    if strHasSub k "category" then optStr d.best_categorical
    else if strHasSub k "value" || strHasSub k "y_col" then optStr d.best_numeric
    else if strHasSub k "x_col" then xColAuto d
    else if k = "y_columns" then CVal.vlist (d.numeric.take 3)
    else if k = "title" then CVal.vnull
    else v
  else v

/-- `get_chart_config` (main.py lines 84-120), applied to the chart
fragment `conf` of the user configuration: the resolver maps over the
entries that are present in the fragment. -/
def get_chart_config (conf : List (String × CVal)) (d : Detected) : List (String × CVal) :=
  conf.map (fun kv => (kv.1, resolveEntry d kv.1 kv.2))

/-- Projection of a numeric cell. -/
def toNum : Value → Option ℚ
  | Value.num q => some q
  | _ => none

/-- Lexicographic comparison of character lists (the order pandas uses
on string group keys). -/
def chLe : List Char → List Char → Bool
  | [], _ => true
  | _ :: _, [] => false
  | a :: as, b :: bs => if a = b then chLe as bs else decide (a < b)

/-- A total order on cell values, used for the ascending key order of
`groupby` (null first, then numbers, then strings; pandas never mixes
kinds inside one column, so the cross-kind cases are arbitrary). -/
def valLe : Value → Value → Bool
  | Value.null, _ => true
  | Value.num _, Value.null => false
  | Value.num q, Value.num r => decide (q ≤ r)
  | Value.num _, Value.str _ => true
  | Value.str _, Value.null => false
  | Value.str _, Value.num _ => false
  | Value.str s, Value.str t => chLe s.data t.data

/-- `valLe` as a relation. -/
def valLeP (a b : Value) : Prop := valLe a b = true

instance : DecidableRel valLeP := fun a b =>
  inferInstanceAs (Decidable (valLe a b = true))

theorem chLe_total (l m : List Char) : chLe l m = true ∨ chLe m l = true := by
  induction l generalizing m with
  | nil => left; rfl
  | cons a as ih =>
    cases m with
    | nil => right; rfl
    | cons b bs =>
      by_cases hab : a = b
      · subst hab
        simpa [chLe] using ih bs
      · have hba : b ≠ a := Ne.symm hab
        simp only [chLe, if_neg hab, if_neg hba]
        rcases lt_trichotomy a b with h | h | h
        · left; exact decide_eq_true h
        · exact absurd h hab
        · right; exact decide_eq_true h

theorem chLe_trans (l m n : List Char) :
    chLe l m = true → chLe m n = true → chLe l n = true := by
  induction l generalizing m n with
  | nil => intro _ _; rfl
  | cons a as ih =>
    cases m with
    | nil => intro h; exact absurd h (by simp [chLe])
    | cons b bs =>
      cases n with
      | nil => intro _ h; exact absurd h (by simp [chLe])
      | cons c cs =>
        intro h1 h2
        by_cases hab : a = b <;> by_cases hbc : b = c
        · subst hab; subst hbc
          simp only [chLe, if_pos rfl] at h1 h2 ⊢
          exact ih bs cs h1 h2
        · subst hab
          simp only [chLe, if_pos rfl, if_neg hbc] at h1 h2 ⊢
          exact h2
        · subst hbc
          simp only [chLe, if_neg hab] at h1 ⊢
          exact h1
        · simp only [chLe, if_neg hab, if_neg hbc] at h1 h2
          have hac : a < c := lt_trans (of_decide_eq_true h1) (of_decide_eq_true h2)
          have : a ≠ c := ne_of_lt hac
          simp only [chLe, if_neg this]
          exact decide_eq_true hac

instance : IsTotal Value valLeP := by
  constructor
  intro a b
  cases a <;> cases b <;> simp [valLeP, valLe]
  · exact le_total _ _
  · exact chLe_total _ _

instance : IsTrans Value valLeP := by
  constructor
  intro a b c h1 h2
  cases a <;> cases b <;> cases c <;>
    simp [valLeP, valLe] at h1 h2 ⊢
  · exact le_trans h1 h2
  · exact chLe_trans _ _ _ h1 h2

/-- Distinct values of a list, in first-appearance order. -/
def dedupFirst (l : List Value) : List Value :=
  l.foldl (fun acc v => if v ∈ acc then acc else acc ++ [v]) []

/-- The non-null cells of a column, in row order: `groupby` ignores
rows whose key is null. -/
def nonNullKeys (ds : Dataset) (c : String) : List Value :=
  (colCells ds c).filter (fun v => v != Value.null)

/-- The group keys produced by `df.groupby(c)`: the distinct non-null
values of the key column, sorted ascending (pandas default). -/
def sortedGroupKeys (ds : Dataset) (c : String) : List Value :=
  List.insertionSort valLeP (dedupFirst (nonNullKeys ds c))

/-- `df[c].nunique()`: number of distinct non-null values. -/
def nunique (ds : Dataset) (c : String) : Nat :=
  (dedupFirst (nonNullKeys ds c)).length

/-- The cells of column `v` over the rows of the group with key `k` of
column `c`. -/
def groupCells (ds : Dataset) (c v : String) (k : Value) : List Value :=
  match colIdx ds c, colIdx ds v with
  | some i, some j =>
      (ds.rows.filter (fun r => r.getD i Value.null == k)).map
        (fun r => r.getD j Value.null)
  | _, _ => []

/-- The aggregation functions the pipeline uses (`sum` default, `mean`,
and the `count` special case of main.py lines 199-200 and 235-236). -/
inductive Agg where
  | sum : Agg
  | mean : Agg
  | count : Agg
deriving DecidableEq

/-- Aggregate of one group: `count` is the group size, `sum` skips
nulls (0 for an all-null group), `mean` of an all-null group is NaN
(modelled `none`). -/
def aggCells : Agg → List Value → Option ℚ
  | Agg.count, cells => some cells.length
  | Agg.sum, cells => some (cells.filterMap toNum).sum
  | Agg.mean, cells =>
      let nums := cells.filterMap toNum
      if nums.length = 0 then none else some (nums.sum / nums.length)

/-- The aggregated table `df.groupby(c)[v].agg(a).reset_index()`:
one row per group key (ascending), with the aggregate value. -/
def groupAgg (ds : Dataset) (c v : String) (a : Agg) : List (Value × Option ℚ) :=
  (sortedGroupKeys ds c).map (fun k => (k, aggCells a (groupCells ds c v k)))

/-- The aggregated table after `.dropna()`: groups with a null
aggregate removed. -/
def nonNullAggs (ds : Dataset) (c v : String) (a : Agg) : List (Value × ℚ) :=
  (groupAgg ds c v a).filterMap (fun p => p.2.map (fun q => (p.1, q)))

/-- Descending order on aggregated rows (`sort_values(ascending=False)`). -/
def aggGe (p q : Value × ℚ) : Prop := q.2 ≤ p.2

instance : DecidableRel aggGe := fun p q =>
  inferInstanceAs (Decidable (q.2 ≤ p.2))

instance : IsTotal (Value × ℚ) aggGe :=
  ⟨fun p q => le_total q.2 p.2⟩

instance : IsTrans (Value × ℚ) aggGe :=
  ⟨fun _ _ _ h1 h2 => le_trans h2 h1⟩

/-- Aggregated rows sorted by aggregate value, descending. -/
def sortDescAgg (l : List (Value × ℚ)) : List (Value × ℚ) :=
  List.insertionSort aggGe l

/-- The bar-chart table (main.py lines 199-207): aggregate per
category, drop null aggregates, sort descending, and keep the top
`topN` rows when `topN > 0` (all rows otherwise). -/
def barChartData (ds : Dataset) (c v : String) (a : Agg) (topN : Int) :
    List (Value × ℚ) :=
  if 0 < topN then (sortDescAgg (nonNullAggs ds c v a)).take topN.toNat
  else sortDescAgg (nonNullAggs ds c v a)

/-- The pie-chart table (main.py lines 235-246): same aggregation as
the bar chart; when `topN > 0` and more than `topN` groups remain, keep
the top `topN - 1` groups and collapse the rest into an `"Other"` row
holding their sum. -/
def pieChartData (ds : Dataset) (c v : String) (a : Agg) (topN : Int) :
    List (Value × ℚ) :=
  if 0 < topN ∧ topN < ((sortDescAgg (nonNullAggs ds c v a)).length : Int) then
    (sortDescAgg (nonNullAggs ds c v a)).take (topN.toNat - 1) ++
      [(Value.str "Other",
        (((sortDescAgg (nonNullAggs ds c v a)).drop (topN.toNat - 1)).map Prod.snd).sum)]
  else sortDescAgg (nonNullAggs ds c v a)

/-- The cardinality test of main.py line 230: `3 <= unique_count <= 8`. -/
def pieCatOk (ds : Dataset) (c : String) : Bool :=
  decide (3 ≤ nunique ds c ∧ nunique ds c ≤ 8)

/-- The pie-chart category override (main.py lines 226-232): when the
resolved category equals the auto-selected `best_categorical`, the
first categorical column with 3 to 8 distinct values replaces it. -/
def pieCategory (ds : Dataset) (d : Detected) (catCol : String) : String :=
  if some catCol = d.best_categorical then
    match d.categorical.find? (pieCatOk ds) with
    | some col => col
    | none => catCol
  else catCol

/-- The bar-chart branch (main.py line 193) uses the resolved category
column as is; no override is applied. -/
def barCategory (catCol : String) : String := catCol

/-- Sum of the numeric cells of column `y` over the group of `c` with
key `k` (`groupby(c)[ys].sum()` for one y-column). -/
def colSum (ds : Dataset) (c y : String) (k : Value) : ℚ :=
  ((groupCells ds c y k).filterMap toNum).sum

/-- The line-chart table (main.py lines 263-264):
`df.groupby(x)[ys].sum().reset_index().dropna().head(20)`. Group keys
come out in ascending order (pandas default); the per-group sums are
never null, so `dropna` keeps every group row. -/
def lineChartData (ds : Dataset) (x : String) (ys : List String) :
    List (Value × List ℚ) :=
  ((sortedGroupKeys ds x).map (fun k => (k, ys.map (fun y => colSum ds x y k)))).take 20

/-- The line-chart build decision (main.py lines 266-271): the chart is
produced only when the grouped table has more than one row. -/
def lineChartArtifact (ds : Dataset) (x : String) (ys : List String) :
    Option (List (Value × List ℚ)) :=
  if 1 < (lineChartData ds x ys).length then some (lineChartData ds x ys) else none

/-- A concrete column profile, as the resolver receives it: two valid
categorical columns, one numeric, no date-like column. -/
def exDet : Detected :=
  { numeric := ["revenue"]
    categorical := ["region", "status"]
    date := []
    best_numeric := some "revenue"
    best_categorical := some "region" }

/-- Claim C9: the dict returned by `get_chart_config` has exactly the
key set of the input fragment, in order: resolution replaces values but
never adds or removes a key. -/
theorem resolver_preserves_keys (conf : List (String × CVal)) (d : Detected) :
    (get_chart_config conf d).map Prod.fst = conf.map Prod.fst := by
  simp only [get_chart_config, List.map_map]
  rfl

/-- Claim C1 (amended): for every key, looking it up in the resolver
output finds the entry of the fragment with `"auto"` and null values
replaced by the role-based default; in particular a key absent from the
fragment is also absent from the output — it is not resolved. -/
theorem getChartConfig_lookup (conf : List (String × CVal)) (d : Detected) (k : String) :
    (get_chart_config conf d).lookup k = (conf.lookup k).map (resolveEntry d k) := by
  induction conf with
  | nil => rfl
  | cons kv rest ih =>
    obtain ⟨k0, v0⟩ := kv
    simp only [get_chart_config, List.map_cons, List.lookup]
    cases h : k == k0 with
    | true => simp [eq_of_beq h]
    | false => simpa [get_chart_config] using ih

/-- Claim C1, counterexample to the original statement: the profile
offers `best_categorical = "region"`, the fragment has no
`category_column` key, and the resolver output still has none — the
absent key is not substituted with the profile default. -/
theorem claim1_counterexample :
    exDet.best_categorical = some "region" ∧
    (get_chart_config [("value_column", CVal.vstr "auto")] exDet).lookup
      "category_column" = none := by
  exact ⟨rfl, by decide⟩

/-- Claim C8 (amended): a supplied value different from the sentinel
`"auto"` and from null is preserved unchanged in the resolver output. -/
theorem explicit_value_preserved (conf : List (String × CVal)) (d : Detected)
    (k : String) (v : CVal) (hauto : v ≠ CVal.vstr "auto") (hnull : v ≠ CVal.vnull)
    (hmem : (k, v) ∈ conf) :
    (k, v) ∈ get_chart_config conf d := by
  have hres : resolveEntry d k v = v := by
    unfold resolveEntry
    rw [if_neg]
    rintro (h | h)
    · exact hauto h
    · exact hnull h
  have h2 := List.mem_map_of_mem
    (fun kv : String × CVal => (kv.1, resolveEntry d kv.1 kv.2)) hmem
  simpa [get_chart_config, hres] using h2

/-- Claim C8, witness: an explicit category column survives resolution. -/
theorem explicit_value_preserved_witness :
    ("category_column", CVal.vstr "status") ∈
      get_chart_config [("category_column", CVal.vstr "status")] exDet :=
  explicit_value_preserved [("category_column", CVal.vstr "status")] exDet
    "category_column" (CVal.vstr "status") (by decide) (by decide) (by decide)

/-- Claim C8, counterexample to the original statement: the supplied
value `None` differs from the sentinel `"auto"`, yet the resolver
replaces it with the profile default instead of preserving it. -/
theorem claim8_counterexample :
    CVal.vnull ≠ CVal.vstr "auto" ∧
    (get_chart_config [("category_column", CVal.vnull)] exDet).lookup
      "category_column" = some (CVal.vstr "region") := by
  exact ⟨by decide, by decide⟩

/-- A dataset with 10 rows and two numeric columns: `colA` has exactly
3 non-null cells (non-null fraction exactly 0.30), `colB` has 4. -/
def exDsB : Dataset :=
  { colNames := ["colA", "colB"]
    colKinds := [CKind.number, CKind.number]
    rows := [[Value.num 1, Value.num 1],
             [Value.num 1, Value.num 1],
             [Value.num 1, Value.num 1],
             [Value.null, Value.num 1],
             [Value.null, Value.null],
             [Value.null, Value.null],
             [Value.null, Value.null],
             [Value.null, Value.null],
             [Value.null, Value.null],
             [Value.null, Value.null]] }

/-- Claim C4: a column of numeric (resp. text) kind is listed in
`numeric` (resp. `categorical`) iff its non-null count strictly exceeds
0.30 of the row count (`10 * notna > 3 * rows` exactly); on `exDsB`,
the column with fraction exactly 0.30 is excluded and the one with
fraction 0.40 is included. -/
theorem valid_threshold (ds : Dataset) (c : String) :
    (c ∈ (auto_detect_columns ds).numeric ↔
      c ∈ ds.colNames ∧ kindOf ds c = some CKind.number ∧
        3 * ds.rows.length < 10 * notnaCount ds c) ∧
    (c ∈ (auto_detect_columns ds).categorical ↔
      c ∈ ds.colNames ∧ kindOf ds c = some CKind.text ∧
        3 * ds.rows.length < 10 * notnaCount ds c) ∧
    ("colA" ∉ (auto_detect_columns exDsB).numeric ∧
      "colB" ∈ (auto_detect_columns exDsB).numeric) := by
  refine ⟨?_, ?_, by decide, by decide⟩ <;>
    · simp [auto_detect_columns, List.mem_filter, validCol, and_assoc]
      intro _
      exact and_comm

/-- A dataset whose text column `order_date` is fully populated: it
qualifies for the categorical list and is also date-like by name. -/
def exDs4 : Dataset :=
  { colNames := ["order_date", "amount"]
    colKinds := [CKind.text, CKind.number]
    rows := [[Value.str "2021-01-01", Value.num 5],
             [Value.str "2021-01-02", Value.num 6]] }

/-- Claim C10: the profile's date list holds exactly the columns whose
lowercased name contains `date` or `time`, with no null-fraction or
kind filtering; such a column can simultaneously be categorical, as
`order_date` of `exDs4` shows. -/
theorem date_columns_by_name (ds : Dataset) (c : String) :
    (c ∈ (auto_detect_columns ds).date ↔ c ∈ ds.colNames ∧ isDateName c = true) ∧
    ("order_date" ∈ (auto_detect_columns exDs4).date ∧
      "order_date" ∈ (auto_detect_columns exDs4).categorical) := by
  refine ⟨?_, by decide, by decide⟩
  simp [auto_detect_columns, List.mem_filter]

/-- Scenario C of the spec: `region` has 20 distinct values, `status`
has 5, both fully populated; `region` comes first, so it is the
auto-selected `best_categorical`. -/
def exDs2 : Dataset :=
  { colNames := ["region", "status"]
    colKinds := [CKind.text, CKind.text]
    rows := [[Value.str "r01", Value.str "s1"],
             [Value.str "r02", Value.str "s2"],
             [Value.str "r03", Value.str "s3"],
             [Value.str "r04", Value.str "s4"],
             [Value.str "r05", Value.str "s5"],
             [Value.str "r06", Value.str "s1"],
             [Value.str "r07", Value.str "s2"],
             [Value.str "r08", Value.str "s3"],
             [Value.str "r09", Value.str "s4"],
             [Value.str "r10", Value.str "s5"],
             [Value.str "r11", Value.str "s1"],
             [Value.str "r12", Value.str "s2"],
             [Value.str "r13", Value.str "s3"],
             [Value.str "r14", Value.str "s4"],
             [Value.str "r15", Value.str "s5"],
             [Value.str "r16", Value.str "s1"],
             [Value.str "r17", Value.str "s2"],
             [Value.str "r18", Value.str "s3"],
             [Value.str "r19", Value.str "s4"],
             [Value.str "r20", Value.str "s5"]] }

/-- Claim C2: when the pie category equals the profile's
`best_categorical`, the builder replaces it with the first categorical
column whose distinct-value count lies in [3, 8]; the bar branch keeps
the resolved category unchanged. -/
theorem pie_category_override (ds : Dataset) (d : Detected) (cat col : String)
    (hbest : d.best_categorical = some cat)
    (hfind : d.categorical.find? (pieCatOk ds) = some col) :
    pieCategory ds d cat = col ∧ barCategory cat = cat := by
  refine ⟨?_, rfl⟩
  unfold pieCategory
  rw [hbest, if_pos rfl, hfind]

/-- Claim C2, witness (scenario C): on `exDs2` the auto-selected pie
category `region` (20 distinct values) is overridden to `status`
(5 distinct values), while the bar chart keeps `region`. -/
theorem pie_category_override_witness :
    pieCategory exDs2 (auto_detect_columns exDs2) "region" = "status" ∧
      barCategory "region" = "region" :=
  pie_category_override exDs2 (auto_detect_columns exDs2) "region" "status"
    (by decide) (by decide)

theorem sortDescAgg_sorted (l : List (Value × ℚ)) :
    (sortDescAgg l).Pairwise aggGe :=
  List.sorted_insertionSort aggGe l

theorem sortDescAgg_perm (l : List (Value × ℚ)) : (sortDescAgg l).Perm l :=
  List.perm_insertionSort aggGe l

theorem sortDescAgg_length (l : List (Value × ℚ)) :
    (sortDescAgg l).length = l.length :=
  (sortDescAgg_perm l).length_eq

/-- Claim C6: the bar-chart table is sorted by aggregate value
descending, holds at most `topN` rows when `topN > 0` and every
non-null-aggregate group when `topN ≤ 0`, and always comes from the
sorted table of non-null aggregates. -/
theorem bar_sorted_topn (ds : Dataset) (c v : String) (a : Agg) (topN : Int) :
    (barChartData ds c v a topN).Pairwise aggGe ∧
    (if 0 < topN then (barChartData ds c v a topN).length ≤ topN.toNat
      else (barChartData ds c v a topN).Perm (nonNullAggs ds c v a)) ∧
    (barChartData ds c v a topN).Sublist (sortDescAgg (nonNullAggs ds c v a)) := by
  unfold barChartData
  by_cases h : 0 < topN
  · rw [if_pos h, if_pos h]
    exact ⟨(sortDescAgg_sorted _).sublist (List.take_sublist _ _),
      List.length_take_le _ _, List.take_sublist _ _⟩
  · rw [if_neg h, if_neg h]
    exact ⟨sortDescAgg_sorted _, sortDescAgg_perm _, List.Sublist.refl _⟩

/-- Claim C5: when the aggregated pie groups outnumber a positive
`topN`, the output is the `topN - 1` largest groups followed by one
`"Other"` row summing all excluded groups, it has exactly `topN` rows,
and its total equals the total of all input groups. -/
theorem pie_other_bucket (ds : Dataset) (c v : String) (a : Agg) (topN : Int)
    (h1 : 0 < topN) (h2 : topN < ((nonNullAggs ds c v a).length : Int)) :
    (pieChartData ds c v a topN).length = topN.toNat ∧
    (pieChartData ds c v a topN).getLast? =
      some (Value.str "Other",
        (((sortDescAgg (nonNullAggs ds c v a)).drop (topN.toNat - 1)).map Prod.snd).sum) ∧
    (pieChartData ds c v a topN).dropLast =
      (sortDescAgg (nonNullAggs ds c v a)).take (topN.toNat - 1) ∧
    ((pieChartData ds c v a topN).map Prod.snd).sum =
      ((nonNullAggs ds c v a).map Prod.snd).sum := by
  have hslen : (sortDescAgg (nonNullAggs ds c v a)).length = (nonNullAggs ds c v a).length :=
    sortDescAgg_length _
  have hcond : 0 < topN ∧ topN < ((sortDescAgg (nonNullAggs ds c v a)).length : Int) := by
    refine ⟨h1, ?_⟩
    rw [hslen]
    exact h2
  have hout : pieChartData ds c v a topN =
      (sortDescAgg (nonNullAggs ds c v a)).take (topN.toNat - 1) ++
        [(Value.str "Other",
          (((sortDescAgg (nonNullAggs ds c v a)).drop (topN.toNat - 1)).map Prod.snd).sum)] := by
    unfold pieChartData
    rw [if_pos hcond]
  have hbounds : 1 ≤ topN.toNat ∧ topN.toNat - 1 ≤ (sortDescAgg (nonNullAggs ds c v a)).length := by
    rw [hslen]
    omega
  refine ⟨?_, ?_, ?_, ?_⟩
  · rw [hout, List.length_append, List.length_take]
    simp only [List.length_singleton]
    omega
  · rw [hout]
    exact List.getLast?_concat _
  · rw [hout]
    exact List.dropLast_concat ..
  · rw [hout, List.map_append, List.sum_append]
    have hsplit : ((sortDescAgg (nonNullAggs ds c v a)).map Prod.snd).sum =
        (((sortDescAgg (nonNullAggs ds c v a)).take (topN.toNat - 1)).map Prod.snd).sum +
          (((sortDescAgg (nonNullAggs ds c v a)).drop (topN.toNat - 1)).map Prod.snd).sum := by
      conv_lhs => rw [← List.take_append_drop (topN.toNat - 1) (sortDescAgg (nonNullAggs ds c v a))]
      rw [List.map_append, List.sum_append]
    have hperm : ((sortDescAgg (nonNullAggs ds c v a)).map Prod.snd).sum =
        ((nonNullAggs ds c v a).map Prod.snd).sum :=
      ((sortDescAgg_perm _).map Prod.snd).sum_eq
    rw [← hperm, hsplit]
    simp

/-- A pie-chart aggregation with three groups `a ↦ 5, b ↦ 3, c ↦ 1`. -/
def exDs5 : Dataset :=
  { colNames := ["cat", "val"]
    colKinds := [CKind.text, CKind.number]
    rows := [[Value.str "a", Value.num 2], [Value.str "a", Value.num 3],
             [Value.str "b", Value.num 3], [Value.str "c", Value.num 1]] }

/-- Claim C5, witness: with `topN = 2` and three groups, the pie table
is the top group followed by an `"Other"` row, and the total 9 is
preserved. -/
theorem pie_other_bucket_witness :
    (pieChartData exDs5 "cat" "val" Agg.sum 2).length = (2 : Int).toNat ∧
    (pieChartData exDs5 "cat" "val" Agg.sum 2).getLast? =
      some (Value.str "Other",
        (((sortDescAgg (nonNullAggs exDs5 "cat" "val" Agg.sum)).drop ((2 : Int).toNat - 1)).map
          Prod.snd).sum) ∧
    (pieChartData exDs5 "cat" "val" Agg.sum 2).dropLast =
      (sortDescAgg (nonNullAggs exDs5 "cat" "val" Agg.sum)).take ((2 : Int).toNat - 1) ∧
    ((pieChartData exDs5 "cat" "val" Agg.sum 2).map Prod.snd).sum =
      ((nonNullAggs exDs5 "cat" "val" Agg.sum).map Prod.snd).sum :=
  pie_other_bucket exDs5 "cat" "val" Agg.sum 2 (by decide)
    (of_decide_eq_true (by with_unfolding_all rfl))

/-- Claim C7: the line chart is built exactly when the grouped table
has at least 2 rows, the built table has between 2 and 20 rows, and a
grouped table with fewer than 2 rows yields no artifact. -/
theorem line_skip_rule (ds : Dataset) (x : String) (ys : List String) :
    match lineChartArtifact ds x ys with
    | some t => 2 ≤ t.length ∧ t.length ≤ 20
    | none => (lineChartData ds x ys).length < 2 := by
  have h20 : (lineChartData ds x ys).length ≤ 20 := by
    unfold lineChartData
    exact List.length_take_le _ _
  unfold lineChartArtifact
  by_cases h : 1 < (lineChartData ds x ys).length
  · rw [if_pos h]
    exact ⟨h, h20⟩
  · rw [if_neg h]
    omega

/-- Claim C3 (amended): the line-chart table keeps the first 20 groups
in ascending order of the group key — `groupby` sorts keys, so the cap
is applied to the sorted group list, not to dataset order. -/
theorem line_groups_sorted_take (ds : Dataset) (x : String) (ys : List String) :
    (lineChartData ds x ys).map Prod.fst = (sortedGroupKeys ds x).take 20 ∧
    ((lineChartData ds x ys).map Prod.fst).Pairwise valLeP ∧
    (lineChartData ds x ys).length ≤ 20 := by
  have hmap : (lineChartData ds x ys).map Prod.fst = (sortedGroupKeys ds x).take 20 := by
    unfold lineChartData
    rw [← List.map_take, List.map_map]
    have hid : (Prod.fst ∘ fun k : Value => (k, List.map (fun y => colSum ds x y k) ys)) = id := rfl
    rw [hid, List.map_id]
  refine ⟨hmap, ?_, List.length_take_le _ _⟩
  rw [hmap]
  exact (List.sorted_insertionSort valLeP _).sublist (List.take_sublist _ _)

/-- A dataset with 21 distinct x-groups whose first group in dataset
order (`z`) is last in sorted key order. -/
def exDs3 : Dataset :=
  { colNames := ["x", "y"]
    colKinds := [CKind.text, CKind.number]
    rows := [[Value.str "z", Value.num 1],
             [Value.str "a", Value.num 1],
             [Value.str "b", Value.num 1],
             [Value.str "c", Value.num 1],
             [Value.str "d", Value.num 1],
             [Value.str "e", Value.num 1],
             [Value.str "f", Value.num 1],
             [Value.str "g", Value.num 1],
             [Value.str "h", Value.num 1],
             [Value.str "i", Value.num 1],
             [Value.str "j", Value.num 1],
             [Value.str "k", Value.num 1],
             [Value.str "l", Value.num 1],
             [Value.str "m", Value.num 1],
             [Value.str "n", Value.num 1],
             [Value.str "o", Value.num 1],
             [Value.str "p", Value.num 1],
             [Value.str "q", Value.num 1],
             [Value.str "r", Value.num 1],
             [Value.str "s", Value.num 1],
             [Value.str "t", Value.num 1]] }

/-- Claim C3, counterexample to the original statement: on `exDs3` the
group `z` is first in dataset order, yet the code drops it (the 20
retained groups are the first 20 in sorted key order), so the retained
groups are not the first 20 groups in dataset order. -/
theorem claim3_counterexample :
    Value.str "z" ∉ (lineChartData exDs3 "x" ["y"]).map Prod.fst ∧
    (lineChartData exDs3 "x" ["y"]).map Prod.fst ≠
      (dedupFirst (nonNullKeys exDs3 "x")).take 20 :=
  ⟨of_decide_eq_true (by with_unfolding_all rfl),
   of_decide_eq_true (by with_unfolding_all rfl)⟩

end Report
